import Mathlib

/-!
kappanhang status log: a verification development.

Shallow embedding of `statuslog.go`.  The package-level variable `statusLog`,
the package-level `statusLogInterval`, the live `loop` goroutines and everything
the methods write (standard output, the fallback logger, channel operations of
the caller) are collected in one record, `World`; every method of
`statusLogStruct` becomes a function on `World`.

Each method body runs under `s.mutex`, so one call is one atomic state
transformer here.  The genuinely concurrent part (the rendezvous between
`stopPeriodicPrint` and `loop`) is modelled separately by a transition function
on configurations of the two parties.

Go values:
* `time.Duration` and clock readings are `Int` nanoseconds, wrapped or saturated
  to 64 bits exactly where the Go library does so;
* `float64` is the inductive `Float64` (sign, integer significand, binary
  exponent, infinities, NaN) with correctly rounded division and the `%f` verb;
* nil-able pointers and channels are `Option`;
* a call that panics, blocks for ever or leaves the modelled fragment of
  `fmt.Printf` returns an `Except Fault`.
-/

namespace Kappanhang

/-! ## Go library values -/

/-- Ways in which a call does not return normally. -/
inductive Fault
  | panic
  | blocked
  | unmodelled
deriving DecidableEq, Repr

deriving instance DecidableEq for Except

/-- Nanosecond count of a `time.Duration` (an int64). -/
abbrev Duration := Int

/-- The constant `time.Second`. -/
def Second : Duration := 1000000000

/-- The constant `minDuration` of package time. -/
def minDuration : Duration := -9223372036854775808

/-- The constant `maxDuration` of package time. -/
def maxDuration : Duration := 9223372036854775807

/-- Two's complement wrap of an integer to int64. -/
def wrap64 (x : Int) : Int :=
  (x + 9223372036854775808) % 18446744073709551616 - 9223372036854775808

/-- Saturation of an integer to the int64 range, as `Time.Sub` does. -/
def sat64 (x : Int) : Duration :=
  if x < minDuration then minDuration else if maxDuration < x then maxDuration else x

/-- The call `time.Since(t)` when the clock reads `now`. -/
def timeSince (now t : Int) : Duration :=
  sat64 (now - t)

/-- The helper `lessThanHalf` of package time, for non-negative arguments. -/
def lessThanHalf (x y : Duration) : Bool :=
  decide (x + x < y)

/-- The method `Duration.Round`. -/
def Duration.round (d m : Duration) : Duration :=
  if m ≤ 0 then d
  else
    let r := Int.tmod d m
    if d < 0 then
      let r := -r
      if lessThanHalf r m then d + r
      else
        let d1 := wrap64 (d - m + r)
        if d1 < d then d1 else minDuration
    else
      if lessThanHalf r m then d - r
      else
        let d1 := wrap64 (d + m - r)
        if d1 > d then d1 else maxDuration

/-- The method `Duration.Milliseconds`: integer division truncating to zero. -/
def Duration.milliseconds (d : Duration) : Int :=
  Int.tdiv d 1000000

/-- Decimal digit character of a number below ten. -/
def digitChar (n : Nat) : Char :=
  Char.ofNat (48 + n % 10)

/-- Decimal digits of `v`, most significant first, in front of `acc`; `fuel`
bounds the number of digits produced. -/
def digitsAux : Nat → Nat → List Char → List Char
  | 0, _, acc => acc
  | fuel + 1, v, acc =>
    if v < 10 then digitChar v :: acc
    else digitsAux fuel (v / 10) (digitChar (v % 10) :: acc)

/-- The helper `fmtInt` of package time, which is also how `fmt` prints an
unsigned decimal: at least one digit, no leading zeros. -/
def fmtInt (v : Nat) : List Char :=
  digitsAux (v + 1) v []

/-- Loop of the helper `fmtFrac` of package time. -/
def fmtFracLoop : Nat → Nat → Bool → List Char → List Char × Nat × Bool
  | 0, v, pr, buf => (buf, v, pr)
  | i + 1, v, pr, buf =>
    let digit := v % 10
    let pr1 := pr || decide (digit ≠ 0)
    fmtFracLoop i (v / 10) pr1 (if pr1 then digitChar digit :: buf else buf)

/-- The helper `fmtFrac` of package time: the fraction of `v / 10^prec` without
trailing zeros written in front of `buf`, together with `v / 10^prec`. -/
def fmtFrac (buf : List Char) (v prec : Nat) : List Char × Nat :=
  let res := fmtFracLoop prec v false buf
  (if res.2.2 then '.' :: res.1 else res.1, res.2.1)

/-- The method `Duration.String`. -/
def Duration.string (d : Duration) : String :=
  let u := d.natAbs
  let body : List Char :=
    if u < 1000000000 then
      if u = 0 then ['0', 's']
      else if u < 1000 then
        let fr := fmtFrac ['n', 's'] u 0
        fmtInt fr.2 ++ fr.1
      else if u < 1000000 then
        let fr := fmtFrac ['µ', 's'] u 3
        fmtInt fr.2 ++ fr.1
      else
        let fr := fmtFrac ['m', 's'] u 6
        fmtInt fr.2 ++ fr.1
    else
      let fr := fmtFrac ['s'] u 9
      let secs := fmtInt (fr.2 % 60) ++ fr.1
      let u1 := fr.2 / 60
      if u1 > 0 then
        let mins := fmtInt (u1 % 60) ++ 'm' :: secs
        let u2 := u1 / 60
        if u2 > 0 then fmtInt u2 ++ 'h' :: mins else mins
      else secs
  String.mk (if d < 0 then '-' :: body else body)

/-- How `fmt.Sprint` prints a signed integer operand. -/
def sprintInt (i : Int) : String :=
  String.mk (if i < 0 then '-' :: fmtInt i.natAbs else fmtInt i.natAbs)

/-! ## float64 -/

/-- Values of Go's `float64`: `finite neg m e` stands for `(-1)^neg * m * 2^e`. -/
inductive Float64
  | finite (neg : Bool) (mant : Nat) (exp : Int)
  | inf (neg : Bool)
  | nan
deriving DecidableEq, Repr

/-- Number of binary digits of `v` added to `acc`; `fuel` bounds the count. -/
def bitLenAux : Nat → Nat → Nat → Nat
  | 0, _, acc => acc
  | fuel + 1, v, acc => if v = 0 then acc else bitLenAux fuel (v / 2) (acc + 1)

/-- Position of the leading binary digit: `floor (log2 v)` for positive `v`. -/
def ilog2 (v : Nat) : Nat :=
  bitLenAux v v 0 - 1

/-- Numerator and denominator of `num / den * 2^sh`. -/
def scaleFrac (num den : Nat) (sh : Int) : Nat × Nat :=
  if 0 ≤ sh then (num * 2 ^ sh.toNat, den) else (num, den * 2 ^ (-sh).toNat)

/-- Nearest integer to `n / d`, ties to even. -/
def roundHalfEven (n d : Nat) : Nat :=
  let q := n / d
  let r := n % d
  if d < 2 * r ∨ (2 * r = d ∧ q % 2 = 1) then q + 1 else q

/-- Round-to-nearest-even of the positive real `num / den * 2^e` to binary64:
53 significant bits, least exponent -1074, overflow to infinity. -/
def Float64.round (neg : Bool) (num den : Nat) (e : Int) : Float64 :=
  if num = 0 then Float64.finite neg 0 0
  else
    let e1 : Int := e + (ilog2 num : Int) - (ilog2 den : Int) - 52
    let s1 := scaleFrac num den (e - e1)
    let e2 : Int := if s1.1 / s1.2 < 2 ^ 52 then e1 - 1 else e1
    let ex : Int := max e2 (-1074)
    let s := scaleFrac num den (e - ex)
    let m := roundHalfEven s.1 s.2
    if 971 < ex ∨ (ex = 971 ∧ 2 ^ 53 ≤ m) then Float64.inf neg
    else Float64.finite neg m ex

/-- Conversion of a non-negative integer constant to float64. -/
def Float64.ofNat (n : Nat) : Float64 :=
  Float64.round false n 1 0

/-- The float64 operator `/`. -/
def Float64.div : Float64 → Float64 → Float64
  | Float64.nan, _ => Float64.nan
  | _, Float64.nan => Float64.nan
  | Float64.inf _, Float64.inf _ => Float64.nan
  | Float64.inf a, Float64.finite b _ _ => Float64.inf (xor a b)
  | Float64.finite a _ _, Float64.inf b => Float64.finite (xor a b) 0 0
  | Float64.finite a m e, Float64.finite b n f =>
    if n = 0 then
      if m = 0 then Float64.nan else Float64.inf (xor a b)
    else Float64.round (xor a b) m n (e - f)

/-- Digits of `v` padded with leading zeros to width `w`. -/
def padDigits : Nat → Nat → List Char → List Char
  | 0, _, acc => acc
  | w + 1, v, acc => padDigits w (v / 10) (digitChar (v % 10) :: acc)

/-- The verb `%f` of package fmt on a float64: fixed point, six decimals, the
exact binary value rounded half to even. -/
def Float64.formatF : Float64 → String
  | Float64.nan => "NaN"
  | Float64.inf false => "+Inf"
  | Float64.inf true => "-Inf"
  | Float64.finite neg m e =>
    let s := scaleFrac (m * 1000000) 1 e
    let n := roundHalfEven s.1 s.2
    let body := fmtInt (n / 1000000) ++ '.' :: padDigits 6 (n % 1000000) []
    String.mk (if neg then '-' :: body else body)

/-! ## fmt.Printf -/

/-- The rune written by the verb `%c` for an integer operand. -/
def runeOf (i : Int) : Char :=
  if 0 ≤ i ∧ Nat.isValidChar i.toNat then Char.ofNat i.toNat else Char.ofNat 65533

/-- The text `%!(EXTRA int=a, int=b)` that `fmt` appends for unused integer
operands; nothing when there is none. -/
def extraOperands : List Int → List Char
  | [] => []
  | a :: rest =>
    "%!(EXTRA ".data ++ "int=".data ++ (sprintInt a).data
      ++ (rest.map (fun b => ", int=".data ++ (sprintInt b).data)).flatten ++ [')']

/-- The function `doPrintf` of package fmt on integer operands.  Modelled
directives: literal text, `%%`, and the verbs `%c`, `%d`, `%v` without flags,
width, precision or index; a missing operand, a missing verb and left-over
operands give the diagnostics of package fmt.  Any other directive is outside
the model (`Fault.unmodelled`). -/
def doPrintf : List Char → List Int → Except Fault (List Char)
  | [], args => Except.ok (extraOperands args)
  | ch :: rest, args =>
    if ch = '%' then
      match rest with
      | [] => Except.ok ("%!(NOVERB)".data ++ extraOperands args)
      | verb :: rest1 =>
        if verb = '%' then
          (doPrintf rest1 args).map (fun t => '%' :: t)
        else if verb = 'c' ∨ verb = 'd' ∨ verb = 'v' then
          match args with
          | [] => (doPrintf rest1 []).map (fun t => '%' :: '!' :: verb :: "(MISSING)".data ++ t)
          | a :: args1 =>
            (doPrintf rest1 args1).map
              (fun t => (if verb = 'c' then [runeOf a] else (sprintInt a).data) ++ t)
        else Except.error Fault.unmodelled
    else (doPrintf rest args).map (fun t => ch :: t)

/-- The formatted text of `fmt.Printf(format, args...)`. -/
def sprintf (format : String) (args : List Int) : Except Fault String :=
  (doPrintf format.data args).map String.mk

/-! ## The data model of statuslog.go -/

/-- The attributes of package color that statuslog.go uses. -/
inductive Attribute
  | FgHiWhite
  | BlinkRapid
  | BgWhite
  | BgGreen
  | BgRed
  | BgYellow
deriving DecidableEq, Repr

/-- A `color.Color`: its list of attributes in the order they were added. -/
structure Color where
  params : List Attribute
deriving DecidableEq, Repr

/-- The call `color.New(attrs...)`. -/
def Color.new (attrs : List Attribute) : Color :=
  { params := attrs }

/-- The method `Color.Add`. -/
def Color.add (c : Color) (a : Attribute) : Color :=
  { params := c.params ++ [a] }

/-- The collaborators of statuslog.go whose code is outside the file: the byte
count formatter of `netstat`, the styling of package color (a colour applied to
already formatted text) and `Time.Format` with the layout used by `update`. -/
structure Env where
  formatByteCount : Int → String
  colorWrap : Color → String → String
  timeFormat : Int → String

/-- The struct `statusLogData`. -/
structure statusLogData where
  line1 : String
  line2 : String
  stateStr : String
  frequency : Float64
  mode : String
  filter : String
  startTime : Int
  rttStr : String
deriving DecidableEq, Repr

/-- The anonymous struct `preGenerated.stateStr`. -/
structure StateStr where
  unknown : String
  rx : String
  tx : String
  tune : String
deriving DecidableEq, Repr

/-- The anonymous struct `preGenerated`; the colour pointers are nil until
`initIfNeeded` has run. -/
structure PreGenerated where
  retransmitsColor : Option Color
  lostColor : Option Color
  stateStr : StateStr
deriving DecidableEq, Repr

/-- A `time.Ticker` with its period. -/
structure Ticker where
  d : Duration
deriving DecidableEq, Repr

/-- The struct `statusLogStruct` without its mutex; channels are identified by
a number. -/
structure statusLogStruct where
  ticker : Option Ticker
  stopChan : Option Nat
  stopFinishedChan : Option Nat
  preGenerated : PreGenerated
  data : Option statusLogData
deriving DecidableEq, Repr

/-- What a call makes visible outside the reporter. -/
inductive Event
  | stdout (text : String)
  | statusLogRecord (text : String)
  | send (ch : Nat)
  | recv (ch : Nat)
deriving DecidableEq, Repr

/-- The package-level state: the variable `statusLog`, the variable
`statusLogInterval`, the number of live `loop` goroutines, the next fresh channel
number and the events so far, oldest first. -/
structure World where
  statusLog : statusLogStruct
  statusLogInterval : Duration
  loops : Nat
  nextChan : Nat
  events : List Event
deriving DecidableEq, Repr

/-- The zero value of `statusLogStruct`. -/
def statusLogStruct.zero : statusLogStruct :=
  { ticker := none, stopChan := none, stopFinishedChan := none,
    preGenerated := { retransmitsColor := none, lostColor := none,
                      stateStr := { unknown := "", rx := "", tx := "", tune := "" } },
    data := none }

/-- The program state before any call, with the configured interval. -/
def World.init (interval : Duration) : World :=
  { statusLog := statusLogStruct.zero, statusLogInterval := interval, loops := 0,
    nextChan := 0, events := [] }

/-- Replace the snapshot the reporter points to. -/
def World.setData (w : World) (d : statusLogData) : World :=
  { w with statusLog := { w.statusLog with data := some d } }

/-- Append one event. -/
def World.emit (w : World) (e : Event) : World :=
  { w with events := w.events ++ [e] }

/-! ## Producer operations -/

/-- The method `reportRTTLatency`. -/
def reportRTTLatency (w : World) (l : Duration) : World :=
  match w.statusLog.data with
  | none => w
  | some d => w.setData { d with rttStr := sprintInt (Duration.milliseconds l) }

/-- The method `reportFrequency`. -/
def reportFrequency (w : World) (f : Float64) : World :=
  match w.statusLog.data with
  | none => w
  | some d => w.setData { d with frequency := f }

/-- The method `reportMode`. -/
def reportMode (w : World) (mode filter : String) : World :=
  match w.statusLog.data with
  | none => w
  | some d => w.setData { d with mode := mode, filter := filter }

/-- The method `reportPTT`. -/
def reportPTT (w : World) (ptt tune : Bool) : World :=
  match w.statusLog.data with
  | none => w
  | some d =>
    if tune then w.setData { d with stateStr := w.statusLog.preGenerated.stateStr.tune }
    else if ptt then w.setData { d with stateStr := w.statusLog.preGenerated.stateStr.tx }
    else w.setData { d with stateStr := w.statusLog.preGenerated.stateStr.rx }

/-! ## Rendering -/

/-- The method `isRealtimeInternal`. -/
def isRealtimeInternal (w : World) : Bool :=
  decide (w.statusLogInterval < Second)

/-- The method `isRealtime`. -/
def isRealtime (w : World) : Bool :=
  w.statusLog.ticker.isSome && isRealtimeInternal w

/-- The method `isActive`. -/
def isActive (w : World) : Bool :=
  w.statusLog.ticker.isSome

/-- The method `clearInternal`. -/
def clearInternal (w : World) : Except Fault World :=
  (sprintf "%c[2K" [27]).map (fun t => w.emit (Event.stdout t))

/-- The method `print`. -/
def print (w : World) : Except Fault World :=
  match w.statusLog.data with
  | none => Except.error Fault.panic
  | some d =>
    if isRealtimeInternal w then do
      let w1 ← clearInternal w
      let w2 := w1.emit (Event.stdout (d.line1 ++ "\n"))
      let w3 ← clearInternal w2
      let t ← sprintf (d.line2 ++ "%c[1A") [27]
      pure (w3.emit (Event.stdout t))
    else
      pure (w.emit (Event.statusLogRecord d.line2))

/-- The call `c.Sprint(" ", n, " ")` on a colour pointer that may be nil. -/
def colorSprintCount (env : Env) (c : Option Color) (n : Int) : Except Fault String :=
  match c with
  | none => Except.error Fault.panic
  | some col => Except.ok (env.colorWrap col (" " ++ sprintInt n ++ " "))

/-- The method `update`.  Its inputs from outside the reporter are the clock
reading behind `time.Since`, the clock reading of `time.Now()` and the four
values returned by `netstat.get()`. -/
def update (env : Env) (w : World) (nowSince nowStamp up down lost retransmits : Int) :
    Except Fault World :=
  match w.statusLog.data with
  | none => Except.error Fault.panic
  | some d => do
    let modeStr := if d.mode ≠ "" then " " ++ d.mode else ""
    let filterStr := if d.filter ≠ "" then " " ++ d.filter else ""
    let line1 := "state " ++ d.stateStr ++ " freq: "
      ++ Float64.formatF (Float64.div d.frequency (Float64.ofNat 1000000)) ++ modeStr ++ filterStr
    let lostStr ←
      if lost > 0 then colorSprintCount env w.statusLog.preGenerated.lostColor lost
      else pure "0"
    let retransmitsStr ←
      if retransmits > 0 then
        colorSprintCount env w.statusLog.preGenerated.retransmitsColor retransmits
      else pure "0"
    let line2 := "up " ++ Duration.string (Duration.round (timeSince nowSince d.startTime) Second)
      ++ " rtt " ++ d.rttStr ++ "ms up "
      ++ env.formatByteCount up ++ "/s down "
      ++ env.formatByteCount down ++ "/s retx " ++ retransmitsStr ++ "/1m lost " ++ lostStr
      ++ "/1m\r"
    if isRealtimeInternal w then
      let t := env.timeFormat nowStamp
      pure (w.setData { d with line1 := t ++ " " ++ line1, line2 := t ++ " " ++ line2 })
    else
      pure (w.setData { d with line1 := line1, line2 := line2 })

/-- One iteration of `loop` on the branch `case <-s.ticker.C`. -/
def loopTick (env : Env) (w : World) (nowSince nowStamp up down lost retransmits : Int) :
    Except Fault World :=
  match w.statusLog.ticker with
  | none => Except.error Fault.panic
  | some _ => do
    let w1 ← update env w nowSince nowStamp up down lost retransmits
    print w1

/-! ## Lifecycle -/

/-- The method `initIfNeeded`; `isTerminal` is the answer of
`isatty.IsTerminal(os.Stdout.Fd())`. -/
def initIfNeeded (env : Env) (w : World) (isTerminal : Bool) : World :=
  match w.statusLog.data with
  | some _ => w
  | none =>
    let interval :=
      if !isTerminal && decide (w.statusLogInterval < Second) then Second
      else w.statusLogInterval
    let c1 := (Color.new [Attribute.FgHiWhite]).add Attribute.BgWhite
    let c2 := (Color.new [Attribute.FgHiWhite]).add Attribute.BgGreen
    let c3 := (Color.new [Attribute.FgHiWhite, Attribute.BlinkRapid]).add Attribute.BgRed
    { w with
      statusLogInterval := interval
      statusLog := { w.statusLog with
        preGenerated :=
          { stateStr := { unknown := env.colorWrap c1 "  ??  ",
                          rx := env.colorWrap c2 "  RX  ",
                          tx := env.colorWrap c3 "  TX  ",
                          tune := env.colorWrap c3 " TUNE " },
            retransmitsColor := some ((Color.new [Attribute.FgHiWhite]).add Attribute.BgYellow),
            lostColor := some ((Color.new [Attribute.FgHiWhite]).add Attribute.BgRed) } } }

/-- The call `time.NewTicker(d)`, which panics unless `d` is positive. -/
def newTicker (d : Duration) : Except Fault Ticker :=
  if d ≤ 0 then Except.error Fault.panic else Except.ok { d := d }

/-- The method `startPeriodicPrint`; `now` is the reading of `time.Now()`. -/
def startPeriodicPrint (env : Env) (w : World) (isTerminal : Bool) (now : Int) :
    Except Fault World := do
  let w1 := initIfNeeded env w isTerminal
  let data : statusLogData :=
    { line1 := "", line2 := "",
      stateStr := w1.statusLog.preGenerated.stateStr.unknown,
      frequency := Float64.finite false 0 0,
      mode := "", filter := "",
      startTime := now,
      rttStr := "?" }
  let ticker ← newTicker w1.statusLogInterval
  pure { w1 with
    statusLog := { w1.statusLog with
      data := some data,
      stopChan := some w1.nextChan,
      stopFinishedChan := some (w1.nextChan + 1),
      ticker := some ticker },
    nextChan := w1.nextChan + 2,
    loops := w1.loops + 1 }

/-- The method `stopPeriodicPrint`, the handshake with `loop` taken as one
step: the send on `stopChan` needs a live `loop` to receive it, which then
answers on `stopFinishedChan` and returns. -/
def stopPeriodicPrint (w : World) : Except Fault World :=
  if !isActive w then Except.ok w
  else
    let w1 : World := { w with statusLog := { w.statusLog with ticker := none } }
    match w1.statusLog.stopChan, w1.statusLog.stopFinishedChan with
    | some c, some f =>
      if w1.loops = 0 then Except.error Fault.blocked
      else do
        let w2 : World :=
          { (w1.emit (Event.send c)).emit (Event.recv f) with loops := w1.loops - 1 }
        if isRealtimeInternal w2 then
          let w3 ← clearInternal w2
          let w4 := w3.emit (Event.stdout "\n")
          let w5 ← clearInternal w4
          pure (w5.emit (Event.stdout "\n"))
        else
          pure w2
    | _, _ => Except.error Fault.blocked

/-- A collaborator instance for evaluation: byte counts printed as a decimal
followed by `B`, colours that leave the text unstyled, and the clock reading
printed as a decimal in place of a calendar timestamp. -/
def plainEnv : Env :=
  { formatByteCount := fun n => sprintInt n ++ "B",
    colorWrap := fun _ t => t,
    timeFormat := fun t => sprintInt t }

/-- The snapshot that `startPeriodicPrint` allocates under `plainEnv` when the
clock reads 0. -/
def sampleData : statusLogData :=
  { line1 := "", line2 := "", stateStr := "  ??  ", frequency := Float64.finite false 0 0,
    mode := "", filter := "", startTime := 0, rttStr := "?" }

/-- The program state after a first `startPeriodicPrint` under `plainEnv` with a
configured interval of two seconds on non-interactive output, clock reading 0. -/
def sampleWorld : World :=
  { statusLog :=
      { ticker := some { d := 2000000000 },
        stopChan := some 0,
        stopFinishedChan := some 1,
        preGenerated :=
          { retransmitsColor := some { params := [Attribute.FgHiWhite, Attribute.BgYellow] },
            lostColor := some { params := [Attribute.FgHiWhite, Attribute.BgRed] },
            stateStr := { unknown := "  ??  ", rx := "  RX  ", tx := "  TX  ", tune := " TUNE " } },
        data := some sampleData },
    statusLogInterval := 2000000000,
    loops := 1,
    nextChan := 2,
    events := [] }

/-- The program state after a first `startPeriodicPrint` under `plainEnv` with a
configured interval of 100 ms on an interactive terminal (clock reading 0)
followed by `stopPeriodicPrint`. -/
def stoppedWorld : World :=
  { statusLog :=
      { ticker := none,
        stopChan := some 0,
        stopFinishedChan := some 1,
        preGenerated :=
          { retransmitsColor := some { params := [Attribute.FgHiWhite, Attribute.BgYellow] },
            lostColor := some { params := [Attribute.FgHiWhite, Attribute.BgRed] },
            stateStr := { unknown := "  ??  ", rx := "  RX  ", tx := "  TX  ", tune := " TUNE " } },
        data := some sampleData },
    statusLogInterval := 100000000,
    loops := 0,
    nextChan := 2,
    events := [Event.send 0, Event.recv 1, Event.stdout "\x1b[2K", Event.stdout "\n",
      Event.stdout "\x1b[2K", Event.stdout "\n"] }

/-- A program state built by hand, which no run produces: realtime mode (100 ms
on a terminal) with a traffic line that holds a percent sign. -/
def percentWorld : World :=
  { statusLog :=
      { ticker := some { d := 100000000 },
        stopChan := some 0,
        stopFinishedChan := some 1,
        preGenerated :=
          { retransmitsColor := some { params := [Attribute.FgHiWhite, Attribute.BgYellow] },
            lostColor := some { params := [Attribute.FgHiWhite, Attribute.BgRed] },
            stateStr := { unknown := "  ??  ", rx := "  RX  ", tx := "  TX  ", tune := " TUNE " } },
        data := some { sampleData with line1 := "state", line2 := "load 50%" } },
    statusLogInterval := 100000000,
    loops := 1,
    nextChan := 2,
    events := [] }

/-! ## The states a run can reach -/

/-- A text without a percent sign. -/
def percentFree (t : String) : Prop :=
  '%' ∉ t.data

instance instDecidablePercentFree (t : String) : Decidable (percentFree t) :=
  inferInstanceAs (Decidable ('%' ∉ t.data))

/-- Collaborators that never emit a percent sign: the byte count formatter and
the timestamp produce none, the styling adds none. -/
def Env.percentFree (env : Env) : Prop :=
  (∀ n : Int, Kappanhang.percentFree (env.formatByteCount n))
    ∧ (∀ (c : Color) (t : String), Kappanhang.percentFree t →
        Kappanhang.percentFree (env.colorWrap c t))
    ∧ (∀ t : Int, Kappanhang.percentFree (env.timeFormat t))

/-- The program states that calls of the methods of statuslog.go produce from
the state before any call, whatever the configured interval and the inputs from
outside are. -/
inductive Reachable (env : Env) : World → Prop
  | init (interval : Duration) : Reachable env (World.init interval)
  | start (w w1 : World) (isTerminal : Bool) (now : Int) :
      Reachable env w → startPeriodicPrint env w isTerminal now = Except.ok w1 →
      Reachable env w1
  | stop (w w1 : World) :
      Reachable env w → stopPeriodicPrint w = Except.ok w1 → Reachable env w1
  | rtt (w : World) (l : Duration) :
      Reachable env w → Reachable env (reportRTTLatency w l)
  | frequency (w : World) (f : Float64) :
      Reachable env w → Reachable env (reportFrequency w f)
  | mode (w : World) (mode filter : String) :
      Reachable env w → Reachable env (reportMode w mode filter)
  | ptt (w : World) (ptt tune : Bool) :
      Reachable env w → Reachable env (reportPTT w ptt tune)
  | update (w w1 : World) (nowSince nowStamp up down lost retransmits : Int) :
      Reachable env w →
      update env w nowSince nowStamp up down lost retransmits = Except.ok w1 →
      Reachable env w1
  | print (w w1 : World) :
      Reachable env w → print w = Except.ok w1 → Reachable env w1

/-- The program state after a first `startPeriodicPrint` under `plainEnv` with a
configured interval of 100 ms on an interactive terminal, clock reading 0. -/
def realtimeWorld : World :=
  { stoppedWorld with
    statusLog := { stoppedWorld.statusLog with ticker := some { d := 100000000 } },
    loops := 1,
    events := [] }

/-- The snapshot of `realtimeWorld` after one `update` at clock reading 0 with
all four readings of `netstat.get()` zero. -/
def renderedData : statusLogData :=
  { sampleData with
    line1 := "0 state   ??   freq: 0.000000",
    line2 := "0 up 0s rtt ?ms up 0B/s down 0B/s retx 0/1m lost 0/1m\r" }

/-- The program state `realtimeWorld` after that `update`. -/
def renderedWorld : World :=
  realtimeWorld.setData renderedData

/-! ## The handshake between stopPeriodicPrint and loop

Interleaving model of one caller of `stopPeriodicPrint` and the goroutine
started by `go s.loop()`.  A step is one statement of either function (each of
`isActive`, `update` and `print` is atomic: it holds the mutex throughout), a
rendezvous on one of the two unbuffered channels, or the delivery of a timer
tick into the one-slot channel `ticker.C`. -/

/-- Control points of `loop`. -/
inductive LoopPc
  | top        -- about to enter `select`, which evaluates `s.ticker.C`
  | waiting    -- blocked in `select` on `ticker.C` and `stopChan`
  | gotTick    -- `case <-s.ticker.C` taken, about to call `update`
  | updated    -- `update` done, about to call `print`
  | acking     -- `case <-s.stopChan` taken, about to send on `stopFinishedChan`
  | exited     -- the send is done and `loop` has returned
deriving DecidableEq, Repr

/-- Control points of `stopPeriodicPrint`. -/
inductive StopPc
  | check      -- `if !s.isActive()`
  | tickerStop -- `s.ticker.Stop()`
  | setNil     -- `s.ticker = nil`
  | sending    -- `s.stopChan <- true`
  | receiving  -- `<-s.stopFinishedChan`
  | finalizing -- the clearing of the two drawn lines
  | returned
deriving DecidableEq, Repr

/-- What the two parties do that an observer sees. -/
inductive Obs
  | update
  | print
  | clear
  | stopReturned
deriving DecidableEq, Repr

/-- A configuration of the two parties and the state they share. -/
structure Conf where
  loopPc : LoopPc
  stopPc : StopPc
  tickerNil : Bool
  tickerStopped : Bool
  tickPending : Bool
  realtime : Bool
  crashed : Bool
  obs : List Obs
deriving DecidableEq, Repr

/-- The moves of the scheduler. -/
inductive Action
  | tick          -- a tick is put into `ticker.C` (dropped when the slot is full)
  | loop          -- `loop` executes its next statement
  | stop          -- `stopPeriodicPrint` executes its next statement
  | syncStop      -- rendezvous on `stopChan`
  | syncFinished  -- rendezvous on `stopFinishedChan`
deriving DecidableEq, Repr

/-- The configuration right after `startPeriodicPrint`: the ticker is installed,
`loop` is about to enter its `select`, `stopPeriodicPrint` has just been
called; `realtime` is the value of `isRealtimeInternal`. -/
def Conf.started (realtime : Bool) : Conf :=
  { loopPc := LoopPc.top, stopPc := StopPc.check, tickerNil := false,
    tickerStopped := false, tickPending := false, realtime := realtime,
    crashed := false, obs := [] }

/-- One move; a move that is not enabled leaves the configuration as it is.
After a panic (nil dereference in `s.ticker.C`) the program is dead.  Ticks may
arrive at any time, also after `Stop`, which covers a tick injected by hand. -/
def step (a : Action) (c : Conf) : Conf :=
  if c.crashed then c
  else
    match a with
    | Action.tick => { c with tickPending := true }
    | Action.loop =>
      match c.loopPc with
      | LoopPc.top =>
        if c.tickerNil then { c with crashed := true }
        else { c with loopPc := LoopPc.waiting }
      | LoopPc.waiting =>
        if c.tickPending then { c with tickPending := false, loopPc := LoopPc.gotTick }
        else c
      | LoopPc.gotTick => { c with loopPc := LoopPc.updated, obs := c.obs ++ [Obs.update] }
      | LoopPc.updated => { c with loopPc := LoopPc.top, obs := c.obs ++ [Obs.print] }
      | LoopPc.acking => c
      | LoopPc.exited => c
    | Action.stop =>
      match c.stopPc with
      | StopPc.check =>
        if c.tickerNil then { c with stopPc := StopPc.returned, obs := c.obs ++ [Obs.stopReturned] }
        else { c with stopPc := StopPc.tickerStop }
      | StopPc.tickerStop => { c with tickerStopped := true, stopPc := StopPc.setNil }
      | StopPc.setNil => { c with tickerNil := true, stopPc := StopPc.sending }
      | StopPc.sending => c
      | StopPc.receiving => c
      | StopPc.finalizing =>
        { c with
          stopPc := StopPc.returned,
          obs := c.obs ++ (if c.realtime then [Obs.clear, Obs.stopReturned]
                           else [Obs.stopReturned]) }
      | StopPc.returned => c
    | Action.syncStop =>
      if c.stopPc = StopPc.sending ∧ c.loopPc = LoopPc.waiting then
        { c with stopPc := StopPc.receiving, loopPc := LoopPc.acking }
      else c
    | Action.syncFinished =>
      if c.stopPc = StopPc.receiving ∧ c.loopPc = LoopPc.acking then
        { c with stopPc := StopPc.finalizing, loopPc := LoopPc.exited }
      else c

/-- A schedule executed from a configuration. -/
def runSteps (c : Conf) (acts : List Action) : Conf :=
  acts.foldl (fun c a => step a c) c

/-- What the control points of the two parties imply about each other in every
configuration a schedule can reach. -/
def Inv (c : Conf) : Prop :=
  (c.stopPc = StopPc.check → c.tickerNil = false)
    ∧ (c.stopPc = StopPc.receiving → c.loopPc = LoopPc.acking)
    ∧ (c.stopPc = StopPc.finalizing → c.loopPc = LoopPc.exited)
    ∧ (c.stopPc = StopPc.returned → c.loopPc = LoopPc.exited)

/-! ## Go library values: theorems -/

/-- Rounding a non-negative duration to whole seconds: the nearest multiple of
one second, halves upwards, as long as that multiple fits an int64. -/
theorem round_second (d : Duration) (h0 : 0 ≤ d) (h1 : d + Second ≤ maxDuration) :
    Duration.round d Second = (d + 500000000) / 1000000000 * 1000000000 := by
  have hm : Int.tmod d 1000000000 = d % 1000000000 := Int.tmod_eq_emod h0 (by decide)
  simp only [Second, maxDuration] at h1
  simp only [Duration.round, Second, lessThanHalf, wrap64, maxDuration, hm]
  have hn : ¬ d < 0 := not_lt.mpr h0
  simp only [show ¬ ((1000000000 : Int) ≤ 0) by decide, if_false, hn, decide_eq_true_eq]
  unfold Duration at *
  split
  · omega
  · split
    · omega
    · omega

/-- The character of a decimal digit is a digit. -/
theorem digitChar_isDigit (n : Nat) : (digitChar n).isDigit = true := by
  have h : n % 10 < 10 := Nat.mod_lt _ (by decide)
  have key : ∀ r : Fin 10, (Char.ofNat (48 + r.val)).isDigit = true := by decide
  simpa [digitChar] using key ⟨n % 10, h⟩

/-- Zero padding produces exactly the requested number of digits. -/
theorem padDigits_spec (w v : Nat) (acc : List Char) :
    ∃ fr : List Char, padDigits w v acc = fr ++ acc ∧ fr.length = w
      ∧ ∀ c ∈ fr, c.isDigit = true := by
  induction w generalizing v acc with
  | zero => exact ⟨[], rfl, rfl, by simp⟩
  | succ w ih =>
    obtain ⟨fr, h1, h2, h3⟩ := ih (v / 10) (digitChar (v % 10) :: acc)
    refine ⟨fr ++ [digitChar (v % 10)], ?_, ?_, ?_⟩
    · simp [padDigits, h1]
    · simp [h2]
    · intro c hc
      rcases List.mem_append.mp hc with hc | hc
      · exact h3 c hc
      · rw [List.mem_singleton.mp hc]
        exact digitChar_isDigit _

/-- The digits written by `digitsAux` in front of its accumulator. -/
theorem digitsAux_spec (fuel v : Nat) (acc : List Char) :
    ∃ ip : List Char, digitsAux fuel v acc = ip ++ acc ∧ (0 < fuel → ip ≠ [])
      ∧ ∀ c ∈ ip, c.isDigit = true := by
  induction fuel generalizing v acc with
  | zero => exact ⟨[], rfl, fun h => absurd h (by decide), by simp⟩
  | succ fuel ih =>
    by_cases hv : v < 10
    · refine ⟨[digitChar v], by simp [digitsAux, hv], by simp, ?_⟩
      intro c hc
      rw [List.mem_singleton.mp hc]
      exact digitChar_isDigit _
    · obtain ⟨ip, h1, _, h3⟩ := ih (v / 10) (digitChar (v % 10) :: acc)
      refine ⟨ip ++ [digitChar (v % 10)], by simp [digitsAux, hv, h1], by simp, ?_⟩
      intro c hc
      rcases List.mem_append.mp hc with hc | hc
      · exact h3 c hc
      · rw [List.mem_singleton.mp hc]
        exact digitChar_isDigit _

/-- The verb `%f` on a finite value writes an optional minus sign, at least one
digit, a point and exactly six digits. -/
theorem formatF_finite (neg : Bool) (m : Nat) (e : Int) :
    ∃ ip fr : List Char,
      (Float64.formatF (Float64.finite neg m e)).data
          = (if neg then ['-'] else []) ++ ip ++ '.' :: fr
        ∧ ip ≠ [] ∧ fr.length = 6
        ∧ (∀ c ∈ ip, c.isDigit = true) ∧ (∀ c ∈ fr, c.isDigit = true) := by
  obtain ⟨fr, hfr, hlen, hdig⟩ :=
    padDigits_spec 6 (roundHalfEven (scaleFrac (m * 1000000) 1 e).1
      (scaleFrac (m * 1000000) 1 e).2 % 1000000) []
  obtain ⟨ip, hip, hne, hidig⟩ :=
    digitsAux_spec (roundHalfEven (scaleFrac (m * 1000000) 1 e).1
      (scaleFrac (m * 1000000) 1 e).2 / 1000000 + 1)
      (roundHalfEven (scaleFrac (m * 1000000) 1 e).1
      (scaleFrac (m * 1000000) 1 e).2 / 1000000) []
  refine ⟨ip, fr, ?_, hne (Nat.succ_pos _), hlen, hidig, hdig⟩
  simp only [List.append_nil] at hfr hip
  cases neg <;> simp [Float64.formatF, fmtInt, hfr, hip]

/-! ## Producer operations: theorems -/

/-- The sample state is what a first start produces. -/
theorem start_sampleWorld :
    startPeriodicPrint plainEnv (World.init 2000000000) false 0 = Except.ok sampleWorld := by
  decide

/-- C1: on an active reporter `reportPTT ptt tune` leaves the snapshot as it
was except for the state, which becomes the Tuning label when `tune` holds, the
Transmitting label when only `ptt` holds and the Receiving label otherwise; the
state held before the call has no influence on the result. -/
theorem reportPTT_priority (w : World) (d : statusLogData) (ptt tune : Bool)
    (h : w.statusLog.data = some d) :
    (reportPTT w ptt tune).statusLog.data =
        some { d with stateStr :=
          if tune then w.statusLog.preGenerated.stateStr.tune
          else if ptt then w.statusLog.preGenerated.stateStr.tx
          else w.statusLog.preGenerated.stateStr.rx }
      ∧ ∀ before : String,
          reportPTT (w.setData { d with stateStr := before }) ptt tune = reportPTT w ptt tune := by
  constructor
  · cases tune <;> cases ptt <;> simp [reportPTT, h, World.setData]
  · intro before
    cases tune <;> cases ptt <;> simp [reportPTT, h, World.setData]

/-- Witness of C1: the reporter just started, still in state Unknown, keyed
with both flags set, shows the Tuning label. -/
theorem reportPTT_priority_witness :
    sampleWorld.statusLog.data = some sampleData
      ∧ (reportPTT sampleWorld true true).statusLog.data
          = some { sampleData with stateStr := " TUNE " } :=
  ⟨rfl, (reportPTT_priority sampleWorld sampleData true true rfl).1⟩

/-- C2: while the snapshot is absent each of the four producer operations
returns the program state it was given: snapshot still absent, timer,
pre-generated labels, interval and the emitted events all unchanged. -/
theorem report_absent_noop (w : World) (h : w.statusLog.data = none)
    (l : Duration) (f : Float64) (mode filter : String) (ptt tune : Bool) :
    reportRTTLatency w l = w ∧ reportFrequency w f = w ∧ reportMode w mode filter = w
      ∧ reportPTT w ptt tune = w := by
  simp [reportRTTLatency, reportFrequency, reportMode, reportPTT, h]

/-- Witness of C2: the reporter that was never started. -/
theorem report_absent_noop_witness :
    reportRTTLatency (World.init 150000000) 42000000 = World.init 150000000
      ∧ reportFrequency (World.init 150000000) (Float64.ofNat 7200000) = World.init 150000000
      ∧ reportMode (World.init 150000000) "USB" "FIL1" = World.init 150000000
      ∧ reportPTT (World.init 150000000) true false = World.init 150000000 :=
  report_absent_noop (World.init 150000000) rfl 42000000 (Float64.ofNat 7200000)
    "USB" "FIL1" true false

/-! ## Lifecycle: theorems -/

/-- The clear sequence is always written: the constant format of
`clearInternal` holds one `%c` for its one operand. -/
theorem clearInternal_eq (w : World) :
    clearInternal w = Except.ok (w.emit (Event.stdout "\x1b[2K")) := by
  have h : sprintf "%c[2K" [27] = Except.ok "\x1b[2K" := by decide
  simp [clearInternal, h, Except.map]

/-- What a returning `stopPeriodicPrint` leaves of the reporter: no timer, and
the snapshot, the labels and the interval it found. -/
theorem stop_ok_fields (w w1 : World) (h : stopPeriodicPrint w = Except.ok w1) :
    w1.statusLog.ticker = none ∧ w1.statusLog.data = w.statusLog.data
      ∧ w1.statusLog.preGenerated = w.statusLog.preGenerated
      ∧ w1.statusLogInterval = w.statusLogInterval := by
  unfold stopPeriodicPrint at h
  by_cases hact : isActive w = true
  · simp only [hact, Bool.not_true, Bool.false_eq_true, if_false] at h
    cases hc : w.statusLog.stopChan with
    | none => simp [hc] at h
    | some c =>
      cases hf : w.statusLog.stopFinishedChan with
      | none => simp [hc, hf] at h
      | some f =>
        simp only [hc, hf] at h
        by_cases hl : w.loops = 0
        · simp [hl] at h
        · simp only [hl, if_false] at h
          by_cases hr : w.statusLogInterval < Second
          · simp [isRealtimeInternal, World.emit, hr, clearInternal_eq, bind, Except.bind,
              pure, Except.pure] at h
            subst h
            simp
          · simp [isRealtimeInternal, World.emit, hr, bind, Except.bind,
              pure, Except.pure] at h
            subst h
            simp
  · simp only [Bool.not_eq_true] at hact
    simp only [hact, Bool.not_false, if_true] at h
    have h2 := Except.ok.inj h
    subst h2
    simp only [isActive] at hact
    cases ht : w.statusLog.ticker with
    | none => simp
    | some t => simp [ht] at hact

/-- C3, refuted as stated: the reporter started by `startPeriodicPrint` and
then stopped still holds its snapshot, and a later `reportFrequency` changes
it. -/
theorem stop_discards_snapshot_counterexample :
    ¬ (∀ w w1 : World, isActive w = true → stopPeriodicPrint w = Except.ok w1 →
        w1.statusLog.data = none ∧ ∀ f : Float64, reportFrequency w1 f = w1) := by
  intro h
  have h1 := (h sampleWorld
    { sampleWorld with
      statusLog := { sampleWorld.statusLog with ticker := none },
      loops := 0,
      events := [Event.send 0, Event.recv 1] } (by decide) (by decide)).1
  exact absurd h1 (by decide)

/-- C3, amended: after `stopPeriodicPrint` has returned on an active reporter
the timer is gone but the snapshot is the one held before the call, so a later
producer call still updates its field of that snapshot and nothing else. -/
theorem stop_retains_snapshot (w w1 : World) (d : statusLogData)
    (_hact : isActive w = true) (hd : w.statusLog.data = some d)
    (h : stopPeriodicPrint w = Except.ok w1) :
    w1.statusLog.ticker = none ∧ w1.statusLog.data = some d
      ∧ (∀ l : Duration,
          reportRTTLatency w1 l
            = w1.setData { d with rttStr := sprintInt (Duration.milliseconds l) })
      ∧ (∀ f : Float64, reportFrequency w1 f = w1.setData { d with frequency := f })
      ∧ (∀ mode filter : String,
          reportMode w1 mode filter = w1.setData { d with mode := mode, filter := filter })
      ∧ (∀ ptt tune : Bool,
          reportPTT w1 ptt tune = w1.setData { d with stateStr :=
            if tune then w.statusLog.preGenerated.stateStr.tune
            else if ptt then w.statusLog.preGenerated.stateStr.tx
            else w.statusLog.preGenerated.stateStr.rx }) := by
  obtain ⟨ht, hdata, hpre, _⟩ := stop_ok_fields w w1 h
  have hd1 : w1.statusLog.data = some d := by rw [hdata, hd]
  refine ⟨ht, hd1, ?_, ?_, ?_, ?_⟩
  · intro l; simp [reportRTTLatency, hd1]
  · intro f; simp [reportFrequency, hd1]
  · intro mode filter; simp [reportMode, hd1]
  · intro ptt tune
    cases tune <;> cases ptt <;> simp [reportPTT, hd1, hpre]

/-- Witness of the amended C3: start, stop, then `reportFrequency` with 7.2 MHz
stores that frequency in the retained snapshot. -/
theorem stop_retains_snapshot_witness :
    isActive sampleWorld = true
      ∧ (reportFrequency
          { sampleWorld with
            statusLog := { sampleWorld.statusLog with ticker := none },
            loops := 0,
            events := [Event.send 0, Event.recv 1] } (Float64.ofNat 7200000)).statusLog.data
          = some { sampleData with frequency := Float64.finite false 7730941132800000 (-30) } :=
  ⟨by decide, by
    rw [(stop_retains_snapshot sampleWorld _ sampleData (by decide) rfl (by decide)).2.2.2.1]
    decide⟩

/-- The stopped sample state is what start followed by stop produces. -/
theorem start_stop_stoppedWorld :
    (startPeriodicPrint plainEnv (World.init 100000000) true 0 >>= stopPeriodicPrint)
      = Except.ok stoppedWorld := by
  decide

/-- The timer interval and the configured interval after `startPeriodicPrint`:
clamped to one second only when the snapshot is absent, the output is not a
terminal and the interval is below one second; the call panics exactly when
that interval is not positive. -/
theorem start_interval (env : Env) (w : World) (isTerminal : Bool) (now : Int) :
    (0 < (if w.statusLog.data = none ∧ isTerminal = false ∧ w.statusLogInterval < Second
            then Second else w.statusLogInterval) →
      ∃ w1, startPeriodicPrint env w isTerminal now = Except.ok w1
        ∧ w1.statusLog.ticker = some { d :=
            if w.statusLog.data = none ∧ isTerminal = false ∧ w.statusLogInterval < Second
            then Second else w.statusLogInterval }
        ∧ w1.statusLogInterval =
            (if w.statusLog.data = none ∧ isTerminal = false ∧ w.statusLogInterval < Second
             then Second else w.statusLogInterval)
        ∧ w1.statusLog.data ≠ none)
    ∧ ((if w.statusLog.data = none ∧ isTerminal = false ∧ w.statusLogInterval < Second
            then Second else w.statusLogInterval) ≤ 0 →
      startPeriodicPrint env w isTerminal now = Except.error Fault.panic) := by
  cases hd : w.statusLog.data with
  | some d =>
    simp only [reduceCtorEq, false_and, if_false]
    constructor
    · intro hpos
      have hn : ¬ w.statusLogInterval ≤ 0 := not_le.mpr hpos
      simp [startPeriodicPrint, initIfNeeded, hd, newTicker, hn, bind, Except.bind,
        pure, Except.pure]
    · intro hle
      simp [startPeriodicPrint, initIfNeeded, hd, newTicker, hle, bind, Except.bind]
  | none =>
    cases isTerminal with
    | true =>
      simp only [Bool.true_eq_false, false_and, and_false, if_false]
      constructor
      · intro hpos
        have hn : ¬ w.statusLogInterval ≤ 0 := not_le.mpr hpos
        simp [startPeriodicPrint, initIfNeeded, hd, newTicker, hn, bind, Except.bind,
          pure, Except.pure]
      · intro hle
        simp [startPeriodicPrint, initIfNeeded, hd, newTicker, hle, bind, Except.bind]
    | false =>
      by_cases hlt : w.statusLogInterval < Second
      · simp only [hlt, true_and, and_self, if_true]
        constructor
        · intro _
          have hlt1 : w.statusLogInterval < 1000000000 := hlt
          simp [startPeriodicPrint, initIfNeeded, hd, newTicker, hlt1, bind, Except.bind,
            pure, Except.pure, Second]
        · intro hle
          exact absurd hle (by decide)
      · simp only [hlt, and_false, if_false]
        constructor
        · intro hpos
          have hn : ¬ w.statusLogInterval ≤ 0 := not_le.mpr hpos
          simp [startPeriodicPrint, initIfNeeded, hd, newTicker, hn, hlt, bind, Except.bind,
            pure, Except.pure]
        · intro hle
          simp [startPeriodicPrint, initIfNeeded, hd, newTicker, hle, hlt, bind, Except.bind]

/-- C4, refuted as stated: a re-activation after a stop, on non-interactive
output and with a configured interval of 100 ms, creates the timer with 100 ms,
not with one second. -/
theorem start_clamp_every_call_counterexample :
    ¬ (∀ (env : Env) (w : World) (isTerminal : Bool) (now : Int) (w1 : World),
        startPeriodicPrint env w isTerminal now = Except.ok w1 →
        w1.statusLog.ticker = some { d :=
          if isTerminal = false ∧ w.statusLogInterval < Second then Second
          else w.statusLogInterval }) := by
  intro h
  obtain ⟨w1, hw1, htk, _⟩ := (start_interval plainEnv stoppedWorld false 0).1 (by decide)
  have h1 := h plainEnv stoppedWorld false 0 w1 hw1
  rw [htk] at h1
  exact absurd h1 (by decide)

/-- C4, amended: `startPeriodicPrint` returns whenever the configured interval
is positive or the call is a first activation on non-interactive output.  On a
first activation (snapshot absent) with non-interactive output and a configured
interval below one second the timer is created with exactly one second; in
every other case of a first activation, and on every re-activation (snapshot
present), it is created with the configured interval as it stands.  Hence a
re-activation after a stop gets the interval of the activation before it,
whatever the terminal predicate is by then. -/
theorem start_effective_interval (env : Env) (w : World) (isTerminal : Bool) (now : Int)
    (hpos : 0 < w.statusLogInterval ∨ (w.statusLog.data = none ∧ isTerminal = false)) :
    ∃ w1 tk, startPeriodicPrint env w isTerminal now = Except.ok w1
      ∧ w1.statusLog.ticker = some tk
      ∧ (w.statusLog.data = none → isTerminal = false → w.statusLogInterval < Second →
          tk.d = Second)
      ∧ (w.statusLog.data = none → (isTerminal = true ∨ Second ≤ w.statusLogInterval) →
          tk.d = w.statusLogInterval)
      ∧ (w.statusLog.data ≠ none → tk.d = w.statusLogInterval)
      ∧ (∀ (w2 w3 : World) (t2 : Bool) (now2 : Int), stopPeriodicPrint w1 = Except.ok w2 →
          startPeriodicPrint env w2 t2 now2 = Except.ok w3 → w3.statusLog.ticker = some tk) := by
  have hs : (0 : Int) < Second := by decide
  have heff : 0 < (if w.statusLog.data = none ∧ isTerminal = false
      ∧ w.statusLogInterval < Second then Second else w.statusLogInterval) := by
    split
    · exact hs
    · next hn =>
      rcases hpos with h | ⟨h1, h2⟩
      · exact h
      · have : ¬ w.statusLogInterval < Second := fun h3 => hn ⟨h1, h2, h3⟩
        exact lt_of_lt_of_le hs (not_lt.mp this)
  obtain ⟨w1, hw1, htk, hiv, hdat⟩ := (start_interval env w isTerminal now).1 heff
  refine ⟨w1, _, hw1, htk, ?_, ?_, ?_, ?_⟩
  · intro h1 h2 h3
    simp [h1, h2, h3]
  · intro h1 h2
    rcases h2 with h2 | h2
    · simp [h2]
    · simp [not_lt.mpr h2]
  · intro h1
    simp [h1]
  · intro w2 w3 t2 now2 hstop hstart
    obtain ⟨_, hd2, _, hi2⟩ := stop_ok_fields w1 w2 hstop
    have hd3 : w2.statusLog.data ≠ none := by rw [hd2]; exact hdat
    by_cases hle : (if w2.statusLog.data = none ∧ t2 = false
        ∧ w2.statusLogInterval < Second then Second else w2.statusLogInterval) ≤ 0
    · rw [(start_interval env w2 t2 now2).2 hle] at hstart
      exact absurd hstart (by simp)
    · obtain ⟨w4, hw4, htk4, _⟩ := (start_interval env w2 t2 now2).1 (not_le.mp hle)
      rw [hw4] at hstart
      have h34 := Except.ok.inj hstart
      subst h34
      rw [htk4]
      simp [hd3, hi2, hiv]

/-- Witness of the amended C4: a first start on non-interactive output with a
configured interval of 150 ms returns with a one-second timer. -/
theorem start_effective_interval_witness :
    ∃ w1 tk, startPeriodicPrint plainEnv (World.init 150000000) false 0 = Except.ok w1
      ∧ w1.statusLog.ticker = some tk ∧ tk.d = Second := by
  obtain ⟨w1, tk, h1, h2, h3, _⟩ :=
    start_effective_interval plainEnv (World.init 150000000) false 0 (Or.inl (by decide))
  exact ⟨w1, tk, h1, h2, h3 rfl rfl (by decide)⟩

/-- C5: `isRealtime` holds exactly when a timer is installed and the interval is
below one second; a first start with configured interval `i` on output with
terminal predicate `t` returns unless `t` holds and `i` is not positive, and
right after it `isRealtime` holds exactly when `i` is below one second and `t`
holds; after a `stopPeriodicPrint` that has returned `isRealtime` is false. -/
theorem isRealtime_iff :
    (∀ w : World, isRealtime w = true ↔
        (w.statusLog.ticker ≠ none ∧ w.statusLogInterval < Second))
    ∧ (∀ (env : Env) (w : World) (t : Bool) (now : Int), w.statusLog.data = none →
        (0 < w.statusLogInterval ∨ t = false) →
        ∃ w1, startPeriodicPrint env w t now = Except.ok w1)
    ∧ (∀ (env : Env) (w : World) (t : Bool) (now : Int) (w1 : World),
        w.statusLog.data = none → startPeriodicPrint env w t now = Except.ok w1 →
        (isRealtime w1 = true ↔ (w.statusLogInterval < Second ∧ t = true)))
    ∧ (∀ w w1 : World, stopPeriodicPrint w = Except.ok w1 → isRealtime w1 = false) := by
  have hs : (0 : Int) < Second := by decide
  refine ⟨?_, ?_, ?_, ?_⟩
  · intro w
    cases ht : w.statusLog.ticker <;> simp [isRealtime, isRealtimeInternal, ht]
  · intro env w t now hd hpos
    have heff : 0 < (if w.statusLog.data = none ∧ t = false
        ∧ w.statusLogInterval < Second then Second else w.statusLogInterval) := by
      split
      · exact hs
      · next hn =>
        rcases hpos with h | h
        · exact h
        · have : ¬ w.statusLogInterval < Second := fun h3 => hn ⟨hd, h, h3⟩
          exact lt_of_lt_of_le hs (not_lt.mp this)
    obtain ⟨w1, hw1, _⟩ := (start_interval env w t now).1 heff
    exact ⟨w1, hw1⟩
  · intro env w t now w1 hd hw1
    by_cases hle : (if w.statusLog.data = none ∧ t = false
        ∧ w.statusLogInterval < Second then Second else w.statusLogInterval) ≤ 0
    · rw [(start_interval env w t now).2 hle] at hw1
      exact absurd hw1 (by simp)
    · obtain ⟨w2, hw2, htk, hiv, _⟩ := (start_interval env w t now).1 (not_le.mp hle)
      rw [hw2] at hw1
      have h12 := Except.ok.inj hw1
      subst h12
      simp only [isRealtime, isRealtimeInternal, htk, hiv, Option.isSome_some, Bool.true_and,
        decide_eq_true_eq, hd, true_and]
      cases t with
      | true => simp
      | false =>
        by_cases hlt : w.statusLogInterval < Second
        · simp [hlt]
        · simp [hlt]
  · intro w w1 h
    have ht := (stop_ok_fields w w1 h).1
    simp [isRealtime, ht]

/-- Witness of C5: the first start with a two-second interval on non-interactive
output is not realtime, and neither is the state after start and stop with
100 ms on a terminal. -/
theorem isRealtime_iff_witness :
    (isRealtime sampleWorld = true ↔ ((2000000000 : Int) < Second ∧ false = true))
      ∧ isRealtime stoppedWorld = false :=
  ⟨isRealtime_iff.2.2.1 plainEnv (World.init 2000000000) false 0 sampleWorld rfl (by decide),
   isRealtime_iff.2.2.2
     { stoppedWorld with
       statusLog := { stoppedWorld.statusLog with ticker := some { d := 100000000 } },
       loops := 1, events := [] }
     stoppedWorld (by decide)⟩

/-- C9: with no timer installed `stopPeriodicPrint` returns the program state it
was given, so nothing is sent or received on a channel, no field changes and
nothing is written, whatever the configured interval; in start, stop, stop the
second stop therefore changes nothing. -/
theorem stop_inactive_noop (w : World) (h : w.statusLog.ticker = none) :
    stopPeriodicPrint w = Except.ok w
      ∧ ∀ (env : Env) (w0 : World) (t : Bool) (now : Int) (w1 w2 : World),
          startPeriodicPrint env w0 t now = Except.ok w1 →
          stopPeriodicPrint w1 = Except.ok w2 →
          stopPeriodicPrint w2 = Except.ok w2 := by
  have key : ∀ v : World, v.statusLog.ticker = none → stopPeriodicPrint v = Except.ok v := by
    intro v hv
    simp [stopPeriodicPrint, isActive, hv]
  refine ⟨key w h, ?_⟩
  intro env w0 t now w1 w2 _ h2
  exact key w2 (stop_ok_fields w1 w2 h2).1

/-- Witness of C9: the never-started reporter with a sub-second interval, and
the second stop after start and stop on a terminal at 100 ms. -/
theorem stop_inactive_noop_witness :
    stopPeriodicPrint (World.init 100000000) = Except.ok (World.init 100000000)
      ∧ stopPeriodicPrint stoppedWorld = Except.ok stoppedWorld :=
  ⟨(stop_inactive_noop (World.init 100000000) rfl).1,
   (stop_inactive_noop stoppedWorld rfl).1⟩

/-! ## Rendering: theorems -/

/-- The result of `update` outside realtime mode, once the colours exist: only
the two lines of the snapshot are replaced. -/
theorem update_batched (env : Env) (w : World) (d : statusLogData) (cl cr : Color)
    (nowSince nowStamp up down lost retransmits : Int)
    (hd : w.statusLog.data = some d) (hnr : ¬ w.statusLogInterval < Second)
    (hcl : w.statusLog.preGenerated.lostColor = some cl)
    (hcr : w.statusLog.preGenerated.retransmitsColor = some cr) :
    update env w nowSince nowStamp up down lost retransmits = Except.ok (w.setData { d with
      line1 := "state " ++ d.stateStr ++ " freq: "
        ++ Float64.formatF (Float64.div d.frequency (Float64.ofNat 1000000))
        ++ (if d.mode ≠ "" then " " ++ d.mode else "")
        ++ (if d.filter ≠ "" then " " ++ d.filter else ""),
      line2 := "up " ++ Duration.string (Duration.round (timeSince nowSince d.startTime) Second)
        ++ " rtt " ++ d.rttStr ++ "ms up "
        ++ env.formatByteCount up ++ "/s down "
        ++ env.formatByteCount down ++ "/s retx "
        ++ (if retransmits > 0 then env.colorWrap cr (" " ++ sprintInt retransmits ++ " ")
            else "0")
        ++ "/1m lost "
        ++ (if lost > 0 then env.colorWrap cl (" " ++ sprintInt lost ++ " ") else "0")
        ++ "/1m\r" }) := by
  by_cases h1 : lost > 0 <;> by_cases h2 : retransmits > 0 <;>
    simp [update, hd, isRealtimeInternal, hnr, colorSprintCount, hcl, hcr, h1, h2, bind,
      Except.bind, pure, Except.pure]

/-- C6, refuted as stated: for the fresh snapshot with no elapsed time, zero
byte rates, no retransmits and no loss, the traffic line set by `update` is the
expected record followed by a carriage return, hence not the expected record. -/
theorem update_line2_exact_counterexample :
    (update plainEnv sampleWorld 0 0 0 0 0 0).map
        (fun w => w.statusLog.data.map (fun d => d.line2))
      = Except.ok (some "up 0s rtt ?ms up 0B/s down 0B/s retx 0/1m lost 0/1m\r")
    ∧ "up 0s rtt ?ms up 0B/s down 0B/s retx 0/1m lost 0/1m\r"
      ≠ "up 0s rtt ?ms up 0B/s down 0B/s retx 0/1m lost 0/1m" := by
  decide

/-- C6, amended: outside realtime mode, with the colours initialised, `update`
returns and sets line2 to exactly the text "up E rtt RTTms up U/s down D/s retx
R/1m lost L/1m" followed by one carriage return, where E is the uptime rounded
to whole seconds, U and D are the formatted byte counts, and R (L) is the plain
"0" unless retransmits (lost) is positive, in which case it is the styled
count.  For a non-negative uptime the rounded value is the nearest whole number
of seconds, halves upwards. -/
theorem update_line2 (env : Env) (w : World) (d : statusLogData) (cl cr : Color)
    (nowSince nowStamp up down lost retransmits : Int)
    (hd : w.statusLog.data = some d) (hnr : ¬ w.statusLogInterval < Second)
    (hcl : w.statusLog.preGenerated.lostColor = some cl)
    (hcr : w.statusLog.preGenerated.retransmitsColor = some cr) :
    ∃ w1 d1, update env w nowSince nowStamp up down lost retransmits = Except.ok w1
      ∧ w1.statusLog.data = some d1
      ∧ d1.line2 =
          "up " ++ Duration.string (Duration.round (timeSince nowSince d.startTime) Second)
          ++ " rtt " ++ d.rttStr ++ "ms up "
          ++ env.formatByteCount up ++ "/s down "
          ++ env.formatByteCount down ++ "/s retx "
          ++ (if retransmits > 0 then env.colorWrap cr (" " ++ sprintInt retransmits ++ " ")
              else "0")
          ++ "/1m lost "
          ++ (if lost > 0 then env.colorWrap cl (" " ++ sprintInt lost ++ " ") else "0")
          ++ "/1m\r"
      ∧ (0 ≤ nowSince - d.startTime → nowSince - d.startTime + Second ≤ maxDuration →
          Duration.round (timeSince nowSince d.startTime) Second
            = (nowSince - d.startTime + 500000000) / 1000000000 * 1000000000) := by
  refine ⟨_, _,
    update_batched env w d cl cr nowSince nowStamp up down lost retransmits hd hnr hcl hcr,
    rfl, rfl, ?_⟩
  intro h0 h1
  have hs : timeSince nowSince d.startTime = nowSince - d.startTime := by
    simp only [Second, maxDuration] at h1
    simp only [timeSince, sat64, minDuration, maxDuration]
    unfold Duration at *
    split
    · omega
    · split
      · omega
      · rfl
  rw [hs]
  exact round_second _ h0 h1

/-- Witness of the amended C6: the fresh snapshot, no elapsed time, zero byte
rates, no retransmits and no loss. -/
theorem update_line2_witness :
    ∃ w1 d1, update plainEnv sampleWorld 0 0 0 0 0 0 = Except.ok w1
      ∧ w1.statusLog.data = some d1
      ∧ d1.line2 = "up 0s rtt ?ms up 0B/s down 0B/s retx 0/1m lost 0/1m\r" := by
  obtain ⟨w1, d1, h1, h2, h3, _⟩ :=
    update_line2 plainEnv sampleWorld sampleData _ _ 0 0 0 0 0 0 rfl (by decide) rfl rfl
  exact ⟨w1, d1, h1, h2, h3.trans (by decide)⟩

/-- C7: outside realtime mode, with the colours initialised, `update` returns
and sets line1 to exactly "state ", the state label, " freq: ", the frequency
divided by 1000000 printed by the verb %f, then a space and the mode when the
mode is non-empty, then a space and the filter when the filter is non-empty;
the frequency 14313000.0 is printed as "14.313000", and every finite value is
printed as digits, a point and exactly six digits. -/
theorem update_line1 (env : Env) (w : World) (d : statusLogData) (cl cr : Color)
    (nowSince nowStamp up down lost retransmits : Int)
    (hd : w.statusLog.data = some d) (hnr : ¬ w.statusLogInterval < Second)
    (hcl : w.statusLog.preGenerated.lostColor = some cl)
    (hcr : w.statusLog.preGenerated.retransmitsColor = some cr) :
    (∃ w1 d1, update env w nowSince nowStamp up down lost retransmits = Except.ok w1
      ∧ w1.statusLog.data = some d1
      ∧ d1.line1 =
          "state " ++ d.stateStr ++ " freq: "
          ++ Float64.formatF (Float64.div d.frequency (Float64.ofNat 1000000))
          ++ (if d.mode = "" then "" else " " ++ d.mode)
          ++ (if d.filter = "" then "" else " " ++ d.filter))
    ∧ Float64.formatF (Float64.div (Float64.ofNat 14313000) (Float64.ofNat 1000000))
        = "14.313000"
    ∧ (∀ (neg : Bool) (m : Nat) (e : Int), ∃ ip fr : List Char,
        (Float64.formatF (Float64.finite neg m e)).data
            = (if neg then ['-'] else []) ++ ip ++ '.' :: fr
          ∧ ip ≠ [] ∧ fr.length = 6
          ∧ (∀ c ∈ ip, c.isDigit = true) ∧ (∀ c ∈ fr, c.isDigit = true)) := by
  refine ⟨⟨_, _,
    update_batched env w d cl cr nowSince nowStamp up down lost retransmits hd hnr hcl hcr,
    rfl, ?_⟩, by decide, formatF_finite⟩
  by_cases hm : d.mode = "" <;> by_cases hf : d.filter = "" <;> simp [hm, hf]

/-- Witness of C7: the started reporter tuned to 14.313 MHz in mode USB with no
filter. -/
theorem update_line1_witness :
    ∃ w1 d1,
      update plainEnv (sampleWorld.setData
          { sampleData with frequency := Float64.ofNat 14313000, mode := "USB" })
          0 0 0 0 0 0 = Except.ok w1
      ∧ w1.statusLog.data = some d1
      ∧ d1.line1 = "state   ??   freq: 14.313000 USB" := by
  obtain ⟨w1, d1, h1, h2, h3⟩ :=
    (update_line1 plainEnv (sampleWorld.setData
      { sampleData with frequency := Float64.ofNat 14313000, mode := "USB" })
      { sampleData with frequency := Float64.ofNat 14313000, mode := "USB" }
      _ _ 0 0 0 0 0 0 rfl (by decide) rfl rfl).1
  exact ⟨w1, d1, h1, h2, h3.trans (by decide)⟩

/-- A format without a percent sign in front of `%c[1A`, with the one operand
27, prints as the text followed by the cursor-up sequence. -/
theorem doPrintf_percent_free (l : List Char) (h : '%' ∉ l) :
    doPrintf (l ++ "%c[1A".data) [27] = Except.ok (l ++ "\x1b[1A".data) := by
  induction l with
  | nil => decide
  | cons ch rest ih =>
    have h1 : ch ≠ '%' := fun e => h (by simp [e])
    have h2 : '%' ∉ rest := fun e => h (by simp [e])
    rw [List.cons_append, doPrintf.eq_def]
    simp only [if_neg h1, ih h2]
    rfl

/-- The writes of `print` in realtime mode when the traffic line holds no percent
sign: clear, line1 and newline, clear, line2 and cursor-up, all on standard
output. -/
theorem print_realtime (w : World) (d : statusLogData)
    (hd : w.statusLog.data = some d) (hr : w.statusLogInterval < Second)
    (hp : '%' ∉ d.line2.data) :
    print w = Except.ok { w with events := w.events ++
      [Event.stdout "\x1b[2K", Event.stdout (d.line1 ++ "\n"), Event.stdout "\x1b[2K",
       Event.stdout (d.line2 ++ "\x1b[1A")] } := by
  have hf : sprintf (d.line2 ++ "%c[1A") [27] = Except.ok (d.line2 ++ "\x1b[1A") := by
    have := doPrintf_percent_free d.line2.data hp
    simp only [sprintf, String.data_append, this, Except.map]
    rfl
  simp [print, hd, isRealtimeInternal, hr, clearInternal_eq, hf, World.emit, bind, Except.bind,
    pure, Except.pure]

/-- The one write of `print` outside realtime mode: line2 as one record of the
fallback logger. -/
theorem print_batched (w : World) (d : statusLogData)
    (hd : w.statusLog.data = some d) (hnr : ¬ w.statusLogInterval < Second) :
    print w = Except.ok { w with events := w.events ++ [Event.statusLogRecord d.line2] } := by
  simp [print, hd, isRealtimeInternal, hnr, World.emit, pure, Except.pure]

/-- A decimal digit is not a percent sign. -/
theorem ne_percent_of_isDigit (c : Char) (h : c.isDigit = true) : c ≠ '%' := by
  intro e
  rw [e] at h
  exact absurd h (by decide)

/-- The decimal of a natural number holds no percent sign. -/
theorem fmtInt_noPercent (v : Nat) : '%' ∉ fmtInt v := by
  obtain ⟨ip, h1, _, h3⟩ := digitsAux_spec (v + 1) v []
  intro hm
  rw [fmtInt, h1, List.append_nil] at hm
  exact ne_percent_of_isDigit _ (h3 _ hm) rfl

/-- The decimal of an integer holds no percent sign. -/
theorem sprintInt_percentFree (i : Int) : percentFree (sprintInt i) := by
  have h := fmtInt_noPercent i.natAbs
  by_cases hi : i < 0 <;> simp [percentFree, sprintInt, hi, h]

/-- The loop of `fmtFrac` writes digits only. -/
theorem fmtFracLoop_noPercent (i v : Nat) (pr : Bool) (buf : List Char) (h : '%' ∉ buf) :
    '%' ∉ (fmtFracLoop i v pr buf).1 := by
  induction i generalizing v pr buf with
  | zero => exact h
  | succ i ih =>
    simp only [fmtFracLoop]
    apply ih
    split
    · intro hm
      rcases List.mem_cons.mp hm with hm | hm
      · exact ne_percent_of_isDigit _ (digitChar_isDigit _) hm.symm
      · exact h hm
    · exact h

/-- The helper `fmtFrac` adds no percent sign. -/
theorem fmtFrac_noPercent (buf : List Char) (v prec : Nat) (h : '%' ∉ buf) :
    '%' ∉ (fmtFrac buf v prec).1 := by
  have h1 := fmtFracLoop_noPercent prec v false buf h
  simp only [fmtFrac]
  split
  · intro hm
    rcases List.mem_cons.mp hm with hm | hm
    · exact absurd hm (by decide)
    · exact h1 hm
  · exact h1

/-- The text of a duration holds no percent sign. -/
theorem durationString_percentFree (d : Duration) : percentFree (Duration.string d) := by
  have hns := fun v p => fmtFrac_noPercent ['n', 's'] v p (by decide)
  have hus := fun v p => fmtFrac_noPercent ['µ', 's'] v p (by decide)
  have hms := fun v p => fmtFrac_noPercent ['m', 's'] v p (by decide)
  have hs := fun v p => fmtFrac_noPercent ['s'] v p (by decide)
  have hi := fmtInt_noPercent
  have body : '%' ∉ (if d.natAbs < 1000000000 then
      if d.natAbs = 0 then ['0', 's']
      else if d.natAbs < 1000 then
        fmtInt (fmtFrac ['n', 's'] d.natAbs 0).2 ++ (fmtFrac ['n', 's'] d.natAbs 0).1
      else if d.natAbs < 1000000 then
        fmtInt (fmtFrac ['µ', 's'] d.natAbs 3).2 ++ (fmtFrac ['µ', 's'] d.natAbs 3).1
      else
        fmtInt (fmtFrac ['m', 's'] d.natAbs 6).2 ++ (fmtFrac ['m', 's'] d.natAbs 6).1
    else
      if (fmtFrac ['s'] d.natAbs 9).2 / 60 > 0 then
        if (fmtFrac ['s'] d.natAbs 9).2 / 60 / 60 > 0 then
          fmtInt ((fmtFrac ['s'] d.natAbs 9).2 / 60 / 60) ++ 'h' ::
            (fmtInt ((fmtFrac ['s'] d.natAbs 9).2 / 60 % 60) ++ 'm' ::
              (fmtInt ((fmtFrac ['s'] d.natAbs 9).2 % 60) ++ (fmtFrac ['s'] d.natAbs 9).1))
        else
          fmtInt ((fmtFrac ['s'] d.natAbs 9).2 / 60 % 60) ++ 'm' ::
            (fmtInt ((fmtFrac ['s'] d.natAbs 9).2 % 60) ++ (fmtFrac ['s'] d.natAbs 9).1)
      else fmtInt ((fmtFrac ['s'] d.natAbs 9).2 % 60) ++ (fmtFrac ['s'] d.natAbs 9).1) := by
    split
    · split
      · decide
      · split
        · simp [hi, hns]
        · split
          · simp [hi, hus]
          · simp [hi, hms]
    · split
      · split
        · simp [hi, hs]
        · simp [hi, hs]
      · simp [hi, hs]
  by_cases hd : d < 0
  · simp only [percentFree, Duration.string, hd, if_true]
    intro hm
    rcases List.mem_cons.mp hm with hm | hm
    · exact absurd hm (by decide)
    · exact body hm
  · simp only [percentFree, Duration.string, hd, if_false]
    exact body

/-- A concatenation holds no percent sign exactly when neither part does. -/
theorem percentFree_append (a b : String) :
    percentFree (a ++ b) ↔ percentFree a ∧ percentFree b := by
  simp [percentFree, String.data_append, not_or]

/-- The snapshot that a returning `startPeriodicPrint` allocates has an empty
traffic line and the latency text "?". -/
theorem start_ok_data (env : Env) (w w1 : World) (isTerminal : Bool) (now : Int)
    (h : startPeriodicPrint env w isTerminal now = Except.ok w1) :
    ∃ d, w1.statusLog.data = some d ∧ d.line2 = "" ∧ d.rttStr = "?" := by
  unfold startPeriodicPrint at h
  by_cases hle : (initIfNeeded env w isTerminal).statusLogInterval ≤ 0
  · simp [newTicker, hle, bind, Except.bind] at h
  · simp only [newTicker, hle, if_false, bind, Except.bind, pure, Except.pure] at h
    have h1 := Except.ok.inj h
    subst h1
    exact ⟨_, rfl, rfl, rfl⟩

/-- A returning `print` changes nothing of the reporter. -/
theorem print_ok_statusLog (w w1 : World) (h : print w = Except.ok w1) :
    w1.statusLog = w.statusLog := by
  unfold print at h
  cases hd : w.statusLog.data with
  | none => simp [hd] at h
  | some d =>
    simp only [hd] at h
    by_cases hr : isRealtimeInternal w = true
    · simp only [hr, if_true, clearInternal_eq, bind, Except.bind, pure, Except.pure] at h
      cases hs : sprintf (d.line2 ++ "%c[1A") [27] with
      | error e => simp [hs] at h
      | ok t =>
        simp only [hs] at h
        have h1 := Except.ok.inj h
        subst h1
        rfl
    · simp only [hr, if_false, pure, Except.pure, Bool.false_eq_true] at h
      have h1 := Except.ok.inj h
      subst h1
      rfl

/-- The traffic line that a returning `update` writes holds no percent sign when
the collaborators emit none and the latency text holds none; the latency text
stays as it was. -/
theorem update_ok_percentFree (env : Env) (w w1 : World) (d : statusLogData)
    (nowSince nowStamp up down lost retransmits : Int)
    (henv : env.percentFree) (hd : w.statusLog.data = some d) (hrtt : percentFree d.rttStr)
    (h : update env w nowSince nowStamp up down lost retransmits = Except.ok w1) :
    ∃ d1, w1.statusLog.data = some d1 ∧ d1.rttStr = d.rttStr ∧ percentFree d1.line2 := by
  obtain ⟨hfb, hcw, htf⟩ := henv
  have hcount : ∀ (c : Color) (n : Int),
      percentFree (env.colorWrap c (" " ++ sprintInt n ++ " ")) := by
    intro c n
    apply hcw
    simp only [percentFree_append]
    exact ⟨⟨by decide, sprintInt_percentFree n⟩, by decide⟩
  cases hcl : w.statusLog.preGenerated.lostColor <;>
  cases hcr : w.statusLog.preGenerated.retransmitsColor <;>
  by_cases h1 : lost > 0 <;> by_cases h2 : retransmits > 0 <;>
  by_cases hr : w.statusLogInterval < Second <;>
  simp [update, hd, hcl, hcr, h1, h2, hr, isRealtimeInternal, colorSprintCount, bind,
    Except.bind, pure, Except.pure] at h <;>
  (subst h
   refine ⟨_, rfl, rfl, ?_⟩
   simp only [percentFree_append]
   repeat' apply And.intro
   all_goals first
     | decide
     | exact durationString_percentFree _
     | exact hrtt
     | exact hfb _
     | exact htf _
     | exact hcount _ _)

/-- In every state a run reaches, with collaborators that emit no percent sign,
the latency text and the traffic line of the snapshot hold no percent sign. -/
theorem reachable_percentFree (env : Env) (w : World) (henv : env.percentFree)
    (hr : Reachable env w) :
    ∀ d, w.statusLog.data = some d → percentFree d.rttStr ∧ percentFree d.line2 := by
  induction hr with
  | init interval =>
    intro d hd
    simp [World.init, statusLogStruct.zero] at hd
  | start w w1 isTerminal now _ hs _ =>
    intro d hd
    obtain ⟨d0, h0, h1, h2⟩ := start_ok_data env w w1 isTerminal now hs
    rw [h0] at hd
    have := Option.some.inj hd
    subst this
    rw [h1, h2]
    exact ⟨by decide, by decide⟩
  | stop w w1 _ hs ih =>
    intro d hd
    rw [(stop_ok_fields w w1 hs).2.1] at hd
    exact ih d hd
  | rtt w l _ ih =>
    intro d hd
    cases h0 : w.statusLog.data with
    | none => simp [reportRTTLatency, h0] at hd
    | some d0 =>
      simp only [reportRTTLatency, h0, World.setData] at hd
      have := Option.some.inj hd
      subst this
      exact ⟨sprintInt_percentFree _, (ih d0 h0).2⟩
  | frequency w f _ ih =>
    intro d hd
    cases h0 : w.statusLog.data with
    | none => simp [reportFrequency, h0] at hd
    | some d0 =>
      simp only [reportFrequency, h0, World.setData] at hd
      have := Option.some.inj hd
      subst this
      exact ih d0 h0
  | mode w mode filter _ ih =>
    intro d hd
    cases h0 : w.statusLog.data with
    | none => simp [reportMode, h0] at hd
    | some d0 =>
      simp only [reportMode, h0, World.setData] at hd
      have := Option.some.inj hd
      subst this
      exact ih d0 h0
  | ptt w ptt tune _ ih =>
    intro d hd
    cases h0 : w.statusLog.data with
    | none => simp [reportPTT, h0] at hd
    | some d0 =>
      cases tune <;> cases ptt <;>
        · simp only [reportPTT, h0, World.setData, if_true, if_false, Bool.false_eq_true] at hd
          have := Option.some.inj hd
          subst this
          exact ih d0 h0
  | update w w1 nowSince nowStamp up down lost retransmits _ hu ih =>
    intro d hd
    cases h0 : w.statusLog.data with
    | none => simp [update, h0] at hu
    | some d0 =>
      obtain ⟨d1, h1, h2, h3⟩ := update_ok_percentFree env w w1 d0 nowSince nowStamp up down
        lost retransmits henv h0 (ih d0 h0).1 hu
      rw [h1] at hd
      have := Option.some.inj hd
      subst this
      rw [h2]
      exact ⟨(ih d0 h0).1, h3⟩
  | print w w1 _ hp ih =>
    intro d hd
    rw [print_ok_statusLog w w1 hp] at hd
    exact ih d hd

/-- The collaborator instance `plainEnv` emits no percent sign. -/
theorem plainEnv_percentFree : plainEnv.percentFree := by
  refine ⟨?_, ?_, ?_⟩
  · intro n
    simp only [plainEnv, percentFree_append]
    exact ⟨sprintInt_percentFree n, by decide⟩
  · intro _ t ht
    exact ht
  · intro t
    exact sprintInt_percentFree t

/-- The rendered sample state is reached by a first start on a terminal at
100 ms followed by one `update`. -/
theorem renderedWorld_reachable : Reachable plainEnv renderedWorld :=
  Reachable.update realtimeWorld renderedWorld 0 0 0 0 0 0
    (Reachable.start (World.init 100000000) realtimeWorld true 0
      (Reachable.init 100000000) (by decide))
    (by decide)

/-- C8: for every snapshot that a run of the program can hold (collaborators
emitting no percent sign), `print` returns and, when the interval is below one
second, its writes are exactly the clear sequence, line1 and a newline, the
clear sequence, line2 and the cursor-up sequence, all on standard output and
none to the fallback logger; when the interval is at least one second its only
write is one fallback-logger record with the text line2.  The realtime part
holds for every line1 and every line2 without a percent sign, reached or not. -/
theorem print_writes (env : Env) (w : World) (d : statusLogData)
    (henv : env.percentFree) (hreach : Reachable env w) (hd : w.statusLog.data = some d) :
    (w.statusLogInterval < Second →
        print w = Except.ok { w with events := w.events ++
          [Event.stdout "\x1b[2K", Event.stdout (d.line1 ++ "\n"), Event.stdout "\x1b[2K",
           Event.stdout (d.line2 ++ "\x1b[1A")] })
      ∧ (¬ w.statusLogInterval < Second →
        print w = Except.ok { w with events := w.events ++ [Event.statusLogRecord d.line2] })
      ∧ (∀ (v : World) (e : statusLogData), v.statusLog.data = some e →
          percentFree e.line2 → v.statusLogInterval < Second →
          print v = Except.ok { v with events := v.events ++
            [Event.stdout "\x1b[2K", Event.stdout (e.line1 ++ "\n"), Event.stdout "\x1b[2K",
             Event.stdout (e.line2 ++ "\x1b[1A")] }) :=
  ⟨fun hr => print_realtime w d hd hr (reachable_percentFree env w henv hreach d hd).2,
   fun hnr => print_batched w d hd hnr,
   fun v e he hp hr => print_realtime v e he hr hp⟩

/-- Witness of C8: after a first start on a terminal at 100 ms and one `update`,
`print` makes the four writes on standard output. -/
theorem print_writes_witness :
    print renderedWorld = Except.ok { renderedWorld with events :=
      [Event.stdout "\x1b[2K", Event.stdout "0 state   ??   freq: 0.000000\n",
       Event.stdout "\x1b[2K",
       Event.stdout "0 up 0s rtt ?ms up 0B/s down 0B/s retx 0/1m lost 0/1m\r\x1b[1A"] } :=
  (print_writes plainEnv renderedWorld renderedData plainEnv_percentFree
    renderedWorld_reachable rfl).1 (by decide)

/-- Why the snapshot has to be one that a run can hold: `print` passes line2 to
`fmt.Printf` as part of the format, so in a state built by hand whose line2
holds a percent sign the last write is not line2 followed by the cursor-up
sequence.  No run reaches such a state (`reachable_percentFree`). -/
theorem print_percent_line2 :
    (print percentWorld).map (fun w => w.events)
      = Except.ok [Event.stdout "\x1b[2K", Event.stdout "state\n", Event.stdout "\x1b[2K",
          Event.stdout "load 50%c[1A%!(EXTRA int=27)"]
    ∧ "load 50%c[1A%!(EXTRA int=27)" ≠ "load 50%" ++ "\x1b[1A" := by
  decide

/-! ## The handshake: theorems -/

/-- The invariant holds right after `startPeriodicPrint`. -/
theorem inv_started (rt : Bool) : Inv (Conf.started rt) := by
  simp [Inv, Conf.started]

/-- Every move preserves the invariant. -/
theorem inv_step (a : Action) (c : Conf) (h : Inv c) : Inv (step a c) := by
  obtain ⟨lp, sp, tn, ts, tp, rt, cr, obs⟩ := c
  cases cr
  · cases a <;> cases lp <;> cases sp <;> cases tn <;> cases tp <;>
      simp_all [Inv, step]
  · simpa [step] using h

/-- Every schedule preserves the invariant. -/
theorem inv_runSteps (acts : List Action) (c : Conf) (h : Inv c) : Inv (runSteps c acts) := by
  induction acts generalizing c with
  | nil => exact h
  | cons a rest ih => exact ih (step a c) (inv_step a c h)

/-- Once `stopPeriodicPrint` has returned and `loop` has exited, no move adds an
observation or revives either party. -/
theorem step_after_return (a : Action) (c : Conf)
    (hs : c.stopPc = StopPc.returned) (hl : c.loopPc = LoopPc.exited) :
    (step a c).stopPc = StopPc.returned ∧ (step a c).loopPc = LoopPc.exited
      ∧ (step a c).obs = c.obs := by
  obtain ⟨lp, sp, tn, ts, tp, rt, cr, obs⟩ := c
  simp only at hs hl
  subst hs hl
  cases cr <;> cases a <;> simp [step]

/-- The same for a whole schedule. -/
theorem runSteps_after_return (more : List Action) (c : Conf)
    (hs : c.stopPc = StopPc.returned) (hl : c.loopPc = LoopPc.exited) :
    (runSteps c more).loopPc = LoopPc.exited ∧ (runSteps c more).obs = c.obs := by
  induction more generalizing c with
  | nil => exact ⟨hl, rfl⟩
  | cons a rest ih =>
    obtain ⟨h1, h2, h3⟩ := step_after_return a c hs hl
    obtain ⟨h4, h5⟩ := ih (step a c) h1 h2
    exact ⟨h4, h5.trans h3⟩

/-- C10: in every interleaving of `stopPeriodicPrint` with the `loop` started by
the matching `startPeriodicPrint`, once `stopPeriodicPrint` has returned `loop`
has exited, and whatever happens afterwards, ticks included, `loop` stays
exited and no `update` or `print` (indeed no observation at all) is added. -/
theorem stop_rendezvous (rt : Bool) (acts more : List Action)
    (h : (runSteps (Conf.started rt) acts).stopPc = StopPc.returned) :
    (runSteps (Conf.started rt) acts).loopPc = LoopPc.exited
      ∧ (runSteps (runSteps (Conf.started rt) acts) more).loopPc = LoopPc.exited
      ∧ (runSteps (runSteps (Conf.started rt) acts) more).obs
          = (runSteps (Conf.started rt) acts).obs := by
  have hl := (inv_runSteps acts (Conf.started rt) (inv_started rt)).2.2.2 h
  exact ⟨hl, runSteps_after_return more _ h hl⟩

/-- Witness of C10: one tick is rendered, then stop runs to its return through
both rendezvous; a tick injected afterwards and further moves of `loop` add
nothing. -/
theorem stop_rendezvous_witness :
    (runSteps (Conf.started true)
        [Action.loop, Action.tick, Action.loop, Action.loop, Action.loop, Action.loop,
         Action.stop, Action.stop, Action.stop, Action.syncStop, Action.syncFinished,
         Action.stop]).stopPc = StopPc.returned
      ∧ (runSteps (runSteps (Conf.started true)
          [Action.loop, Action.tick, Action.loop, Action.loop, Action.loop, Action.loop,
           Action.stop, Action.stop, Action.stop, Action.syncStop, Action.syncFinished,
           Action.stop]) [Action.tick, Action.loop, Action.loop]).obs
          = [Obs.update, Obs.print, Obs.clear, Obs.stopReturned] :=
  ⟨by decide,
   (stop_rendezvous true
      [Action.loop, Action.tick, Action.loop, Action.loop, Action.loop, Action.loop,
       Action.stop, Action.stop, Action.stop, Action.syncStop, Action.syncFinished,
       Action.stop] [Action.tick, Action.loop, Action.loop] (by decide)).2.2.trans (by decide)⟩

end Kappanhang
